import Mathlib

/-!
Shallow embedding of the process-supervision core of the
wazap-suite-desktop-launcher repository:

* `src/src/main/server-manager.ts` — `ServerManager` (primary service):
  resource extraction, database check, spawn, readiness detection on
  stdout, two-phase stop.
* `src/unnamed/part_001` — `TunnelManager` (cloudflared tunnel):
  start (quick/named mode), output parsing (URL extraction, readiness,
  failure vocabulary), two-phase stop; plus `setupIpcHandlers` showing
  which events the application subscribes to.

Filesystem paths, the configuration store and the OS process are modelled
explicitly; event emission (`emit('log')`, `emit('status-change')`,
`emit('url-change')`, `emit('error')`) is modelled as an append-only event
trace per manager.  Signals sent to the child process are modelled as an
append-only list of signal names.
-/

namespace Wazap

/-- `ServerStatus` from server-manager.ts line 11. -/
inductive ServerStatus where
  | idle
  | extracting
  | migrating
  | starting
  | running
  | stopping
  | error
deriving DecidableEq, Repr

/-- `status.toUpperCase()` used in the synthetic status log line
(server-manager.ts line 35). -/
def ServerStatus.upper : ServerStatus → String
  | .idle => "IDLE"
  | .extracting => "EXTRACTING"
  | .migrating => "MIGRATING"
  | .starting => "STARTING"
  | .running => "RUNNING"
  | .stopping => "STOPPING"
  | .error => "ERROR"

/-- `TunnelStatus` from tunnel-manager (part_001 line 9). -/
inductive TunnelStatus where
  | idle
  | starting
  | running
  | stopping
  | error
deriving DecidableEq, Repr

/-- Events emitted by the `ServerManager` EventEmitter. -/
inductive SEvent where
  | statusChange (s : ServerStatus)
  | log (msg : String)
  | errorEvent (msg : String)
deriving DecidableEq, Repr

/-- Events emitted by the `TunnelManager` EventEmitter. -/
inductive TEvent where
  | statusChange (s : TunnelStatus)
  | log (msg : String)
  | urlChange (url : Option String)
  | errorEvent (msg : String)
deriving DecidableEq, Repr

/-- The `tunneling` record of the configuration store
(`configStore.get('tunneling')`). -/
structure TunnelingCfg where
  enabled : Bool
  provider : String
  tunnelToken : Option String
  tunnelUrl : Option String
deriving DecidableEq, Repr

def defaultTunneling : TunnelingCfg :=
  { enabled := false, provider := "cloudflare", tunnelToken := none, tunnelUrl := none }

/-- The configuration-store keys the supervision core reads and writes. -/
structure Config where
  serverPort : Option Nat
  serverVersion : Option String
  chromePath : Option String
  tunneling : Option TunnelingCfg
deriving DecidableEq, Repr

/-- `configStore.get('serverPort') || 4000` — JS `||` treats `0` and
`undefined` as falsy. -/
def readPort (cfg : Config) : Nat :=
  match cfg.serverPort with
  | some p => if p = 0 then 4000 else p
  | none => 4000

/-- The on-disk state the `ServerManager` inspects and mutates, abstracted
to existence flags for the fixed paths it touches.  `zipHasExe` /
`zipHasCloudflared` / `zipHasInitialDb` describe the contents of the
bundled `server.zip`; `rmFails` models `fs.rmSync` throwing;
`dbOpenFails` models `new Database(dbPath)` throwing. -/
structure ServerFS where
  exeExists : Bool
  cloudflaredExists : Bool
  zipExists : Bool
  extractDirExists : Bool
  dbExists : Bool
  initialDbExists : Bool
  zipHasExe : Bool
  zipHasCloudflared : Bool
  zipHasInitialDb : Bool
  rmFails : Bool
  dbOpenFails : Bool
deriving DecidableEq, Repr

/-- The state of one `ServerManager` instance together with its observable
effects: the event trace and the signals sent to the child process. -/
structure SWorld where
  serverProcess : Option Unit
  status : ServerStatus
  port : Nat
  fs : ServerFS
  cfg : Config
  events : List SEvent
  signals : List String
deriving DecidableEq, Repr

/-- The state of one `TunnelManager` instance together with its observable
effects.  `cloudflaredExists` abstracts `fs.existsSync(cloudflaredPath)`. -/
structure TWorld where
  tunnelProcess : Option Unit
  status : TunnelStatus
  tunnelUrl : Option String
  cloudflaredExists : Bool
  cfg : Config
  events : List TEvent
  signals : List String
deriving DecidableEq, Repr

/-! ### String matching

`String.prototype.includes` and the tunnel URL regular expression
`https:\/\/[a-z0-9-]+\.trycloudflare\.com` with the `i` flag, modelled over
character lists. -/

/-- Case-sensitive: `pat` is a prefix of `hay` (character lists). -/
def startsWith : List Char → List Char → Bool
  | [], _ => true
  | _ :: _, [] => false
  | a :: as, b :: bs => a = b && startsWith as bs

/-- `hay.includes(pat)` of JavaScript strings. -/
def hasSub : List Char → List Char → Bool
  | hay, pat =>
    match hay with
    | [] => startsWith pat []
    | _ :: t => startsWith pat hay || hasSub t pat

/-- `msg.includes(pat)` on Lean strings. -/
def strHas (hay pat : String) : Bool :=
  hasSub hay.toList pat.toList

/-- Case-insensitive prefix test (the regex carries the `i` flag). -/
def ciStartsWith : List Char → List Char → Bool
  | [], _ => true
  | _ :: _, [] => false
  | a :: as, b :: bs => a.toLower = b.toLower && ciStartsWith as bs

/-- Character class `[a-z0-9-]` under the `i` flag. -/
def isHostChar (c : Char) : Bool :=
  (97 ≤ c.toNat && c.toNat ≤ 122) || (65 ≤ c.toNat && c.toNat ≤ 90) ||
    (48 ≤ c.toNat && c.toNat ≤ 57) || c = '-'

/-- Match of `https:\/\/[a-z0-9-]+\.trycloudflare\.com` (case-insensitive)
anchored at the head of `l`; returns the matched characters verbatim.
Since `.` is not in the bracketed class, the greedy `+` run is the unique
maximal run and no backtracking arises. -/
def urlMatchAt (l : List Char) : Option (List Char) :=
  if ciStartsWith ("https://".toList) l then
    let rest := l.drop 8
    let run := rest.takeWhile isHostChar
    if 0 < run.length && ciStartsWith (".trycloudflare.com".toList) (rest.drop run.length) then
      some (l.take (8 + run.length + 18))
    else none
  else none

/-- Leftmost match, as `String.prototype.match` returns for a
non-global regex. -/
def firstUrlMatchL : List Char → Option (List Char)
  | [] => none
  | c :: t =>
    match urlMatchAt (c :: t) with
    | some m => some m
    | none => firstUrlMatchL t

/-- `msg.match(/https:\/\/[a-z0-9-]+\.trycloudflare\.com/i)?.[0]`. -/
def firstUrlMatch (msg : String) : Option String :=
  (firstUrlMatchL msg.toList).map fun l => String.mk l

/-! ### ServerManager (server-manager.ts)

Result of an `async` method: either the returned world or a rejection
carrying the world at the point the exception escaped. -/

inductive SRes where
  | ok (w : SWorld)
  | err (w : SWorld) (msg : String)
deriving DecidableEq, Repr

/-- The world carried by a result, whichever constructor. -/
def sresWorld : SRes → SWorld
  | .ok w => w
  | .err w _ => w

/-- `this.emit('log', m)`. -/
def emitLogS (w : SWorld) (m : String) : SWorld :=
  { w with events := w.events ++ [SEvent.log m] }

/-- `ServerManager.setStatus` (lines 31–37): store the status, emit
`status-change`, then emit a synthetic log line. -/
def setStatusS (w : SWorld) (s : ServerStatus) : SWorld :=
  { w with
    status := s,
    events := w.events ++ [SEvent.statusChange s, SEvent.log ("Status changed to: " ++ s.upper)] }

/-- `undefined` prints as the string "undefined" in a template literal. -/
def showOptStr : Option String → String
  | some s => s
  | none => "undefined"

/-- `ServerManager.extractServerIfNeeded` (lines 93–151).  Concrete
filesystem paths are abstracted into the existence flags of `ServerFS`;
`AdmZip.extractAllTo(path, true)` overwrites existing files, so after an
extraction a file exists iff the zip contains it or it survived a failed
cleanup. -/
def extractServerIfNeeded (ver : String) (w : SWorld) : SRes :=
  let w := emitLogS w
    ("Checking server resources (App Ver: " ++ ver ++ ", Extracted: "
      ++ showOptStr w.cfg.serverVersion ++ ")...")
  if w.fs.exeExists = false ∨ w.fs.cloudflaredExists = false ∨ w.cfg.serverVersion ≠ some ver then
    let w := emitLogS w "Extracting server resources... This may take a moment."
    let w := setStatusS w ServerStatus.extracting
    if w.fs.zipExists = false then
      SRes.err w "Server zip not found"
    else
      let w :=
        if w.fs.extractDirExists then
          let w := emitLogS w "Cleaning up old server files..."
          if w.fs.rmFails then
            emitLogS w "Warning: Failed to clean old files"
          else
            { w with fs := { w.fs with
                extractDirExists := false, exeExists := false,
                cloudflaredExists := false, initialDbExists := false } }
        else w
      let w := { w with fs := { w.fs with extractDirExists := true } }
      let w := emitLogS w "Unzipping archive..."
      let w := { w with fs := { w.fs with
          exeExists := w.fs.zipHasExe || w.fs.exeExists,
          cloudflaredExists := w.fs.zipHasCloudflared || w.fs.cloudflaredExists,
          initialDbExists := w.fs.zipHasInitialDb || w.fs.initialDbExists } }
      let w := { w with cfg := { w.cfg with serverVersion := some ver } }
      SRes.ok (emitLogS w "Extraction complete.")
  else
    SRes.ok (emitLogS w "Server resources are up to date.")

/-- `ServerManager.ensureDatabase` (lines 153–187).  `dbOpenFails` models
`new Database(dbPath)` throwing (corrupt or locked file). -/
def ensureDatabase (w : SWorld) : SRes :=
  let w := setStatusS w ServerStatus.migrating
  let w := emitLogS w "Checking database integrity..."
  let w :=
    if w.fs.dbExists then w
    else if w.fs.initialDbExists then
      let w := emitLogS w "Creating new database from template..."
      { w with fs := { w.fs with dbExists := true } }
    else
      emitLogS w "Warning: Initial database template not found."
  let w := emitLogS w "Verifying database connection..."
  if w.fs.dbOpenFails then
    SRes.err w "Database open failed"
  else
    SRes.ok (emitLogS w "Database check passed.")

/-- `ServerManager.spawnServer` (lines 189–217), up to and including the
`spawn` call; the stream/exit handlers it installs are modelled as the
separate handler functions below. -/
def spawnServer (w : SWorld) : SRes :=
  let w := setStatusS w ServerStatus.starting
  if w.fs.exeExists = false then
    SRes.err w "Server executable not found"
  else
    SRes.ok { w with serverProcess := some () }

/-- The `try` block of `ServerManager.start` (lines 48–52). -/
def serverStartBody (ver : String) (w : SWorld) : SRes :=
  match extractServerIfNeeded ver w with
  | SRes.err w m => SRes.err w m
  | SRes.ok w =>
    match ensureDatabase w with
    | SRes.err w m => SRes.err w m
    | SRes.ok w => spawnServer w

/-- The `catch` block of `ServerManager.start` (lines 53–59).  Its last
statement is `this.emit('error', error)`: Node's `EventEmitter.emit`
*throws* the emitted error when no listener is subscribed to the `error`
event, and this repository never subscribes one to `serverManager`
(`setupIpcHandlers` registers only `log` and `status-change` listeners),
so `hasErrListener` selects between the two behaviours and is `false`
for the shipped application. -/
def serverCatch (hasErrListener : Bool) (msg : String) (w : SWorld) : SRes :=
  let w := emitLogS w ("CRITICAL ERROR: " ++ msg)
  let w := setStatusS w ServerStatus.error
  let w := { w with events := w.events ++ [SEvent.errorEvent msg] }
  if hasErrListener then SRes.ok w else SRes.err w msg

/-- `ServerManager.start` (lines 39–60). -/
def serverStart (ver : String) (hasErrListener : Bool) (w : SWorld) : SRes :=
  if w.status = ServerStatus.running ∨ w.status = ServerStatus.starting then
    SRes.ok (emitLogS w "Server start requested but already running/starting.")
  else
    let w := { w with port := readPort w.cfg }
    let w := emitLogS w "Starting initialization sequence..."
    match serverStartBody ver w with
    | SRes.ok w => SRes.ok w
    | SRes.err w m => serverCatch hasErrListener m w

/-- The readiness test of the stdout handler (line 225). -/
def serverReadyMarker (port : Nat) (msg : String) : Bool :=
  strHas msg "Nest application successfully started"
    || strHas msg ("listening on port " ++ toString port)

/-- The stdout `data` handler (lines 219–228), applied to one trimmed
chunk `msg`. -/
def sStdoutData (msg : String) (w : SWorld) : SWorld :=
  let w := emitLogS w msg
  if serverReadyMarker w.port msg then setStatusS w ServerStatus.running else w

/-- The process `close` handler (lines 242–248); `code` is only logged by
`logger.info`, which is not part of the event contract. -/
def sCloseHandler (code : Option Int) (w : SWorld) : SWorld :=
  let _ := code
  let w := if w.status = ServerStatus.stopping then w else setStatusS w ServerStatus.idle
  { w with serverProcess := none }

/-! ### Two-phase stop

`stop` (server lines 62–91, tunnel lines 160–194) races a 5-second timer
against the process `exit` event.  The three schedules a run can take are
made explicit; both completion bodies report whether they called
`resolve()`. -/

inductive StopOutcome where
  | exitBeforeTimeout
  | timeoutNoExit
  | timeoutThenExit
deriving DecidableEq, Repr

/-- The part of `ServerManager.stop` that runs before either completion
path: set `stopping`, log, send SIGTERM. -/
def sStopInit (w : SWorld) : SWorld :=
  let w := setStatusS w ServerStatus.stopping
  let w := emitLogS w "Stopping server process..."
  { w with signals := w.signals ++ ["SIGTERM"] }

/-- The body of the 5-second timer callback (lines 70–79); guarded by
`if (this.serverProcess)`. -/
def sTimeoutBody (w : SWorld) : SWorld × Bool :=
  if w.serverProcess.isSome then
    let w := emitLogS w "Server unresponsive, force killing..."
    let w := { w with signals := w.signals ++ ["SIGKILL"], serverProcess := none }
    (setStatusS w ServerStatus.idle, true)
  else (w, false)

/-- The body of the `exit` listener installed by `stop` (lines 81–87);
unguarded. -/
def sExitBody (w : SWorld) : SWorld × Bool :=
  let w := { w with serverProcess := none }
  let w := emitLogS w "Server stopped gracefully."
  (setStatusS w ServerStatus.idle, true)

def resolveCount (b : Bool) : Nat := if b then 1 else 0

/-- `ServerManager.stop` under a given schedule; the second component
counts how many times `resolve()` ran. -/
def serverStop (oc : StopOutcome) (w : SWorld) : SWorld × Nat :=
  if w.serverProcess = none then (w, 0)
  else
    let w := sStopInit w
    match oc with
    | StopOutcome.exitBeforeTimeout =>
      let r := sExitBody w
      (r.1, resolveCount r.2)
    | StopOutcome.timeoutNoExit =>
      let r := sTimeoutBody w
      (r.1, resolveCount r.2)
    | StopOutcome.timeoutThenExit =>
      let r1 := sTimeoutBody w
      let r2 := sExitBody r1.1
      (r2.1, resolveCount r1.2 + resolveCount r2.2)

/-! ### TunnelManager (part_001) -/

inductive TRes where
  | ok (w : TWorld)
  | err (w : TWorld) (msg : String)
deriving DecidableEq, Repr

/-- `this.emit('log', m)` on the tunnel manager. -/
def emitLogT (w : TWorld) (m : String) : TWorld :=
  { w with events := w.events ++ [TEvent.log m] }

/-- `TunnelManager.setStatus` (lines 24–28): unlike the server manager it
emits no synthetic log line, only `status-change`. -/
def setStatusT (w : TWorld) (s : TunnelStatus) : TWorld :=
  { w with status := s, events := w.events ++ [TEvent.statusChange s] }

/-- `TunnelManager.parseTunnelOutput` (lines 123–158), applied to one
trimmed output chunk.  The three checks run in sequence on the already
updated instance fields, exactly as in the source. -/
def parseTunnelOutput (msg : String) (w : TWorld) : TWorld :=
  let w :=
    match firstUrlMatch msg with
    | some url =>
      let w := { w with tunnelUrl := some url }
      let w := emitLogT w ("Tunnel URL: " ++ url)
      let w := { w with events := w.events ++ [TEvent.urlChange (some url)] }
      let t := w.cfg.tunneling.getD defaultTunneling
      let w := { w with cfg := { w.cfg with tunneling := some { t with tunnelUrl := some url } } }
      setStatusT w TunnelStatus.running
    | none => w
  let w :=
    if strHas msg "Connection" = true ∧ strHas msg "registered" = true then
      let savedUrl := (w.cfg.tunneling.getD defaultTunneling).tunnelUrl
      let w :=
        match savedUrl with
        | some u =>
          if strHas u "trycloudflare" = false then
            let w := { w with tunnelUrl := some u }
            { w with events := w.events ++ [TEvent.urlChange (some u)] }
          else w
        | none => w
      setStatusT w TunnelStatus.running
    else w
  if (strHas msg "failed" = true ∨ strHas msg "error" = true) ∧ w.tunnelUrl = none then
    setStatusT w TunnelStatus.error
  else w

/-- The stdout/stderr `data` handlers (lines 83–96): both emit the
prefixed log line and then parse the chunk. -/
def tDataHandler (msg : String) (w : TWorld) : TWorld :=
  parseTunnelOutput msg (emitLogT w ("[Tunnel] " ++ msg))

/-- `TunnelManager.start` (lines 43–121).  The spawned command line is
chosen by the truthiness of the configured token (JS: an empty string is
falsy).  `spawn` itself does not throw, so the surrounding `try/catch`
has no failing path in the model; OS-level spawn failure arrives through
the `error` event handler instead. -/
def tunnelStart (port : Nat) (w : TWorld) : TRes :=
  let _ := port
  if w.status = TunnelStatus.running ∨ w.status = TunnelStatus.starting then
    TRes.ok (emitLogT w "Tunnel already running or starting.")
  else if w.cloudflaredExists = false then
    let w := emitLogT w "ERROR: cloudflared executable not found."
    let w := emitLogT w "Please ensure cloudflared.exe is bundled with the application."
    let w := setStatusT w TunnelStatus.error
    TRes.err w "cloudflared executable not found"
  else
    let w := setStatusT w TunnelStatus.starting
    let w := emitLogT w "Starting Cloudflare Tunnel..."
    let tok := (w.cfg.tunneling.getD defaultTunneling).tunnelToken
    let w :=
      match tok with
      | some t =>
        if t = "" then emitLogT w "Using quick tunnel (trycloudflare.com)..."
        else emitLogT w "Using named tunnel with token..."
      | none => emitLogT w "Using quick tunnel (trycloudflare.com)..."
    TRes.ok { w with tunnelProcess := some () }

/-- The tunnel process `close` handler (lines 105–113). -/
def tCloseHandler (code : Option Int) (w : TWorld) : TWorld :=
  let _ := code
  let w := { w with tunnelUrl := none }
  let w := { w with events := w.events ++ [TEvent.urlChange none] }
  let w := if w.status = TunnelStatus.stopping then w else setStatusT w TunnelStatus.idle
  { w with tunnelProcess := none }

/-- The part of `TunnelManager.stop` that runs before either completion
path (lines 165–166, 192). -/
def tStopInit (w : TWorld) : TWorld :=
  let w := setStatusT w TunnelStatus.stopping
  let w := emitLogT w "Stopping tunnel..."
  { w with signals := w.signals ++ ["SIGTERM"] }

/-- The body of the tunnel stop timer callback (lines 169–180). -/
def tTimeoutBody (w : TWorld) : TWorld × Bool :=
  if w.tunnelProcess.isSome then
    let w := emitLogT w "Force killing tunnel process..."
    let w := { w with signals := w.signals ++ ["SIGKILL"], tunnelProcess := none, tunnelUrl := none }
    let w := { w with events := w.events ++ [TEvent.urlChange none] }
    (setStatusT w TunnelStatus.idle, true)
  else (w, false)

/-- The body of the `exit` listener installed by tunnel stop
(lines 182–190); unguarded. -/
def tExitBody (w : TWorld) : TWorld × Bool :=
  let w := { w with tunnelProcess := none, tunnelUrl := none }
  let w := { w with events := w.events ++ [TEvent.urlChange none] }
  let w := emitLogT w "Tunnel stopped."
  (setStatusT w TunnelStatus.idle, true)

/-- `TunnelManager.stop` (lines 160–194) under a given schedule. -/
def tunnelStop (oc : StopOutcome) (w : TWorld) : TWorld × Nat :=
  if w.tunnelProcess = none then (w, 0)
  else
    let w := tStopInit w
    match oc with
    | StopOutcome.exitBeforeTimeout =>
      let r := tExitBody w
      (r.1, resolveCount r.2)
    | StopOutcome.timeoutNoExit =>
      let r := tTimeoutBody w
      (r.1, resolveCount r.2)
    | StopOutcome.timeoutThenExit =>
      let r1 := tTimeoutBody w
      let r2 := tExitBody r1.1
      (r2.1, resolveCount r1.2 + resolveCount r2.2)

/-! ### Reachable states

One step is one completed public operation or one event-handler
invocation; the two completion bodies of `stop` are separate steps so the
intermediate `stopping` state is visible.  Per the concurrency model of
the source, steps on one instance never interleave within themselves.
Output/`error` handlers only fire while a process handle is live; the
`close` and stop-completion handlers are attached to the process object
itself and may also fire after the handle field was cleared, so they take
no precondition.  In particular `close` can be delivered while the status
is `stopping`: Node emits `close` strictly after `exit`, and an
unexpected exit has no `exit` listener (only `stop()` installs one), so a
`stop()` issued between the two still sees the handle, transitions to
`stopping` and attaches its `exit` listener too late — the pending
`close` then arrives in status `stopping` and takes the close handler's
`status !== 'stopping'` = false branch, the branch the source writes out
explicitly. -/

/-- Initial `ServerManager` state (fields at lines 14–21). -/
def initSW (fs : ServerFS) (cfg : Config) : SWorld :=
  { serverProcess := none, status := ServerStatus.idle, port := readPort cfg,
    fs := fs, cfg := cfg, events := [], signals := [] }

def cfg0 : Config :=
  { serverPort := none, serverVersion := none, chromePath := none, tunneling := none }

/-- A fully provisioned on-disk state. -/
def fsReady : ServerFS :=
  { exeExists := true, cloudflaredExists := true, zipExists := true,
    extractDirExists := true, dbExists := true, initialDbExists := true,
    zipHasExe := true, zipHasCloudflared := true, zipHasInitialDb := true,
    rmFails := false, dbOpenFails := false }

/-- A fresh installation before any extraction, with the bundled archive
missing. -/
def fsNoZip : ServerFS :=
  { exeExists := false, cloudflaredExists := false, zipExists := false,
    extractDirExists := false, dbExists := false, initialDbExists := false,
    zipHasExe := true, zipHasCloudflared := true, zipHasInitialDb := true,
    rmFails := false, dbOpenFails := false }

/-- A server world whose process is live and running. -/
def swRunning : SWorld :=
  { serverProcess := some (), status := ServerStatus.running, port := 4000,
    fs := fsReady, cfg := cfg0, events := [], signals := [] }

/-- A server world whose process is live, awaiting readiness. -/
def swStarting : SWorld :=
  { serverProcess := some (), status := ServerStatus.starting, port := 4000,
    fs := fsReady, cfg := cfg0, events := [], signals := [] }

/-- A tunnel world whose process is live and running. -/
def twRunning : TWorld :=
  { tunnelProcess := some (), status := TunnelStatus.running, tunnelUrl := none,
    cloudflaredExists := true, cfg := cfg0, events := [], signals := [] }

/-- A tunnel world whose process is live, awaiting readiness. -/
def twStarting : TWorld :=
  { tunnelProcess := some (), status := TunnelStatus.starting, tunnelUrl := none,
    cloudflaredExists := true, cfg := cfg0, events := [], signals := [] }

def exampleUrl : String := "https://abc-def-123.trycloudflare.com"

/-- An idle, fully provisioned world whose stored tag matches version
1.0.0. -/
def swUpToDate : SWorld :=
  { serverProcess := none, status := ServerStatus.idle, port := 4000,
    fs := fsReady, cfg := { cfg0 with serverVersion := some "1.0.0" },
    events := [], signals := [] }

/-- Claim C10: every stdout chunk of the primary service containing
"Nest application successfully started" promotes the status to `running`,
even when the chunk does not contain the configured
"listening on port ..." phrase. -/
theorem nest_marker_promotes_running (w : SWorld) (msg : String)
    (h1 : strHas msg "Nest application successfully started" = true)
    (h2 : strHas msg ("listening on port " ++ toString w.port) = false) :
    (sStdoutData msg w).status = ServerStatus.running := by
  simp [sStdoutData, serverReadyMarker, h1, h2, setStatusS, emitLogS]

/-- Witness for C10 at a concrete line and port 4000. -/
theorem nest_marker_promotes_running_witness :
    (sStdoutData "Nest application successfully started" swStarting).status
      = ServerStatus.running :=
  nest_marker_promotes_running swStarting "Nest application successfully started"
    (by decide) (by decide)

/-- Claim C8: a `start()` call issued while the status is `running` or
`starting` is a logged no-op for both managers: the returned world differs
from the input only by the single log event and no spawn or extraction
occurs. -/
theorem start_noop_when_active (ver : String) (l : Bool) (port : Nat)
    (w : SWorld) (v : TWorld)
    (hw : w.status = ServerStatus.running ∨ w.status = ServerStatus.starting)
    (hv : v.status = TunnelStatus.running ∨ v.status = TunnelStatus.starting) :
    serverStart ver l w =
      SRes.ok { w with events :=
        w.events ++ [SEvent.log "Server start requested but already running/starting."] } ∧
    tunnelStart port v =
      TRes.ok { v with events :=
        v.events ++ [TEvent.log "Tunnel already running or starting."] } := by
  constructor
  · rcases hw with h | h <;> simp [serverStart, emitLogS, h]
  · rcases hv with h | h <;> simp [tunnelStart, emitLogT, h]

/-- Witness for C8 at concrete running-state worlds. -/
theorem start_noop_when_active_witness :
    serverStart "1.0.0" false swRunning =
      SRes.ok { swRunning with events :=
        [SEvent.log "Server start requested but already running/starting."] } ∧
    tunnelStart 4000 twRunning =
      TRes.ok { twRunning with events :=
        [TEvent.log "Tunnel already running or starting."] } :=
  start_noop_when_active "1.0.0" false 4000 swRunning twRunning
    (Or.inl rfl) (Or.inl rfl)

/-- Claim C7: an unexpected process `close` while the status is not
`stopping` transitions the status to `idle` (not `error`) and clears the
handle, for any exit code, on both managers. -/
theorem unexpected_exit_goes_idle (w : SWorld) (v : TWorld) (c1 c2 : Option Int)
    (hw : w.status ≠ ServerStatus.stopping) (hv : v.status ≠ TunnelStatus.stopping) :
    (sCloseHandler c1 w).status = ServerStatus.idle ∧
    (sCloseHandler c1 w).serverProcess = none ∧
    (tCloseHandler c2 v).status = TunnelStatus.idle ∧
    (tCloseHandler c2 v).tunnelProcess = none := by
  refine ⟨?_, ?_, ?_, ?_⟩ <;>
    simp [sCloseHandler, tCloseHandler, setStatusS, setStatusT, hw, hv]

/-- Witness for C7: crash from `running` with exit code 1. -/
theorem unexpected_exit_goes_idle_witness :
    (sCloseHandler (some 1) swRunning).status = ServerStatus.idle ∧
    (sCloseHandler (some 1) swRunning).serverProcess = none ∧
    (tCloseHandler (some 1) twRunning).status = TunnelStatus.idle ∧
    (tCloseHandler (some 1) twRunning).tunnelProcess = none :=
  unexpected_exit_goes_idle swRunning twRunning (some 1) (some 1)
    (by decide) (by decide)

/-- Claim C9: a tunnel output chunk whose leftmost match of the public
hostname pattern is `url` causes the URL to be recorded verbatim as the
endpoint, persisted into the configuration store's `tunneling` record, an
`url-change` event to be emitted with it, and the status to end at
`running`. -/
theorem quick_tunnel_url_recorded (msg url : String) (v : TWorld)
    (h : firstUrlMatch msg = some url) :
    (parseTunnelOutput msg v).tunnelUrl = some url ∧
    (parseTunnelOutput msg v).status = TunnelStatus.running ∧
    (∃ t, (parseTunnelOutput msg v).cfg.tunneling = some t ∧ t.tunnelUrl = some url) ∧
    TEvent.urlChange (some url) ∈ (parseTunnelOutput msg v).events := by
  refine ⟨?_, ?_,
    ⟨{ v.cfg.tunneling.getD defaultTunneling with tunnelUrl := some url }, ?_, rfl⟩, ?_⟩ <;>
  · by_cases hc : strHas msg "Connection" = true ∧ strHas msg "registered" = true
    · by_cases hu : strHas url "trycloudflare" = false <;>
        simp [parseTunnelOutput, h, hc, hu, emitLogT, setStatusT]
    · simp [parseTunnelOutput, h, hc, emitLogT, setStatusT]

/-- Witness for C9 at the spec's example URL arriving on a `starting`
tunnel. -/
theorem quick_tunnel_url_recorded_witness :
    (parseTunnelOutput exampleUrl twStarting).tunnelUrl = some exampleUrl ∧
    (parseTunnelOutput exampleUrl twStarting).status = TunnelStatus.running ∧
    (∃ t, (parseTunnelOutput exampleUrl twStarting).cfg.tunneling = some t ∧
      t.tunnelUrl = some exampleUrl) ∧
    TEvent.urlChange (some exampleUrl) ∈ (parseTunnelOutput exampleUrl twStarting).events :=
  quick_tunnel_url_recorded exampleUrl exampleUrl twStarting (by decide)

/-- Claim C5: `stop()` on a live handle transitions to `stopping` and
sends SIGTERM.  If the process exits before the 5-second timeout, no
force-kill happens (the timer is cancelled), the handle is cleared and
status becomes `idle`.  If the timeout elapses first, SIGKILL is sent,
the handle is cleared and status is forced to `idle` without waiting for
the kill to be observed.  Proved for both managers. -/
theorem stop_two_phase (w : SWorld) (v : TWorld)
    (hw : w.serverProcess = some ()) (hv : v.tunnelProcess = some ()) :
    ((serverStop StopOutcome.exitBeforeTimeout w).1.signals = w.signals ++ ["SIGTERM"] ∧
     (serverStop StopOutcome.exitBeforeTimeout w).1.serverProcess = none ∧
     (serverStop StopOutcome.exitBeforeTimeout w).1.status = ServerStatus.idle ∧
     SEvent.statusChange ServerStatus.stopping ∈ (serverStop StopOutcome.exitBeforeTimeout w).1.events) ∧
    ((serverStop StopOutcome.timeoutNoExit w).1.signals = w.signals ++ ["SIGTERM", "SIGKILL"] ∧
     (serverStop StopOutcome.timeoutNoExit w).1.serverProcess = none ∧
     (serverStop StopOutcome.timeoutNoExit w).1.status = ServerStatus.idle ∧
     SEvent.statusChange ServerStatus.stopping ∈ (serverStop StopOutcome.timeoutNoExit w).1.events) ∧
    ((tunnelStop StopOutcome.exitBeforeTimeout v).1.signals = v.signals ++ ["SIGTERM"] ∧
     (tunnelStop StopOutcome.exitBeforeTimeout v).1.tunnelProcess = none ∧
     (tunnelStop StopOutcome.exitBeforeTimeout v).1.status = TunnelStatus.idle ∧
     TEvent.statusChange TunnelStatus.stopping ∈ (tunnelStop StopOutcome.exitBeforeTimeout v).1.events) ∧
    ((tunnelStop StopOutcome.timeoutNoExit v).1.signals = v.signals ++ ["SIGTERM", "SIGKILL"] ∧
     (tunnelStop StopOutcome.timeoutNoExit v).1.tunnelProcess = none ∧
     (tunnelStop StopOutcome.timeoutNoExit v).1.status = TunnelStatus.idle ∧
     TEvent.statusChange TunnelStatus.stopping ∈ (tunnelStop StopOutcome.timeoutNoExit v).1.events) := by
  refine ⟨⟨?_, ?_, ?_, ?_⟩, ⟨?_, ?_, ?_, ?_⟩, ⟨?_, ?_, ?_, ?_⟩, ⟨?_, ?_, ?_, ?_⟩⟩ <;>
    simp [serverStop, tunnelStop, sStopInit, tStopInit, sExitBody, tExitBody,
      sTimeoutBody, tTimeoutBody, setStatusS, setStatusT, emitLogS, emitLogT,
      resolveCount, hw, hv]

/-- Witness for C5 on concrete running worlds. -/
theorem stop_two_phase_witness :
    ((serverStop StopOutcome.exitBeforeTimeout swRunning).1.signals = ["SIGTERM"] ∧
     (serverStop StopOutcome.exitBeforeTimeout swRunning).1.serverProcess = none ∧
     (serverStop StopOutcome.exitBeforeTimeout swRunning).1.status = ServerStatus.idle ∧
     SEvent.statusChange ServerStatus.stopping ∈ (serverStop StopOutcome.exitBeforeTimeout swRunning).1.events) ∧
    ((serverStop StopOutcome.timeoutNoExit swRunning).1.signals = ["SIGTERM", "SIGKILL"] ∧
     (serverStop StopOutcome.timeoutNoExit swRunning).1.serverProcess = none ∧
     (serverStop StopOutcome.timeoutNoExit swRunning).1.status = ServerStatus.idle ∧
     SEvent.statusChange ServerStatus.stopping ∈ (serverStop StopOutcome.timeoutNoExit swRunning).1.events) ∧
    ((tunnelStop StopOutcome.exitBeforeTimeout twRunning).1.signals = ["SIGTERM"] ∧
     (tunnelStop StopOutcome.exitBeforeTimeout twRunning).1.tunnelProcess = none ∧
     (tunnelStop StopOutcome.exitBeforeTimeout twRunning).1.status = TunnelStatus.idle ∧
     TEvent.statusChange TunnelStatus.stopping ∈ (tunnelStop StopOutcome.exitBeforeTimeout twRunning).1.events) ∧
    ((tunnelStop StopOutcome.timeoutNoExit twRunning).1.signals = ["SIGTERM", "SIGKILL"] ∧
     (tunnelStop StopOutcome.timeoutNoExit twRunning).1.tunnelProcess = none ∧
     (tunnelStop StopOutcome.timeoutNoExit twRunning).1.status = TunnelStatus.idle ∧
     TEvent.statusChange TunnelStatus.stopping ∈ (tunnelStop StopOutcome.timeoutNoExit twRunning).1.events) := by
  have h := stop_two_phase swRunning twRunning rfl rfl
  simpa [swRunning, twRunning] using h

/-- Claim C6: extraction is skipped iff the primary executable exists,
the tunnel binary exists and the stored version tag equals the current
version; the skip case appends only two log lines and changes nothing
else.  Otherwise (with the bundled archive present, the cleanup not
failing, and a filesystem in which files cannot exist inside a missing
directory) the target directory is wiped and recreated, the contents
afterwards are exactly what the archive holds, and the current version is
recorded as the new tag. -/
theorem extraction_skip_iff (ver : String) (w : SWorld) :
    ((w.fs.exeExists = true ∧ w.fs.cloudflaredExists = true ∧
        w.cfg.serverVersion = some ver) →
      ∃ l1 l2, extractServerIfNeeded ver w =
        SRes.ok { w with events := w.events ++ [SEvent.log l1, SEvent.log l2] }) ∧
    (¬(w.fs.exeExists = true ∧ w.fs.cloudflaredExists = true ∧
        w.cfg.serverVersion = some ver) →
      w.fs.zipExists = true → w.fs.rmFails = false →
      (w.fs.extractDirExists = false →
        w.fs.exeExists = false ∧ w.fs.cloudflaredExists = false ∧
          w.fs.initialDbExists = false) →
      ∃ w', extractServerIfNeeded ver w = SRes.ok w' ∧
        SEvent.statusChange ServerStatus.extracting ∈ w'.events ∧
        w'.fs.exeExists = w.fs.zipHasExe ∧
        w'.fs.cloudflaredExists = w.fs.zipHasCloudflared ∧
        w'.fs.initialDbExists = w.fs.zipHasInitialDb ∧
        w'.fs.extractDirExists = true ∧
        w'.cfg.serverVersion = some ver) := by
  constructor
  · rintro ⟨h1, h2, h3⟩
    refine ⟨"Checking server resources (App Ver: " ++ ver ++ ", Extracted: "
        ++ showOptStr w.cfg.serverVersion ++ ")...",
      "Server resources are up to date.", ?_⟩
    simp [extractServerIfNeeded, emitLogS, h1, h2, h3]
  · intro hneed hzip hrm hfs
    have hcond : w.fs.exeExists = false ∨ w.fs.cloudflaredExists = false ∨
        w.cfg.serverVersion ≠ some ver := by
      rcases Bool.eq_false_or_eq_true w.fs.exeExists with h | h
      on_goal 2 => exact Or.inl h
      rcases Bool.eq_false_or_eq_true w.fs.cloudflaredExists with h' | h'
      on_goal 2 => exact Or.inr (Or.inl h')
      by_cases h'' : w.cfg.serverVersion = some ver
      · exact absurd ⟨h, h', h''⟩ hneed
      · exact Or.inr (Or.inr h'')
    rcases Bool.eq_false_or_eq_true w.fs.extractDirExists with hd | hd
    · refine ⟨sresWorld (extractServerIfNeeded ver w), ?_, ?_, ?_, ?_, ?_, ?_, ?_⟩ <;>
        simp [extractServerIfNeeded, sresWorld, emitLogS, setStatusS, hcond, hzip, hrm, hd]
    · obtain ⟨he, hc, hi⟩ := hfs hd
      refine ⟨sresWorld (extractServerIfNeeded ver w), ?_, ?_, ?_, ?_, ?_, ?_, ?_⟩ <;>
        simp [extractServerIfNeeded, sresWorld, emitLogS, setStatusS, hcond, hzip, hd, he, hc, hi]

/-- Witness for C6: both directions at concrete filesystems — a fully
provisioned, version-matching install skips; the same install seen by a
newer application version re-extracts and records the version. -/
theorem extraction_skip_iff_witness :
    (∃ l1 l2, extractServerIfNeeded "1.0.0" swUpToDate =
      SRes.ok { swUpToDate with events := [SEvent.log l1, SEvent.log l2] }) ∧
    (∃ w', extractServerIfNeeded "2.0.0" swUpToDate = SRes.ok w' ∧
      SEvent.statusChange ServerStatus.extracting ∈ w'.events ∧
      w'.fs.exeExists = true ∧ w'.fs.cloudflaredExists = true ∧
      w'.fs.initialDbExists = true ∧ w'.fs.extractDirExists = true ∧
      w'.cfg.serverVersion = some "2.0.0") := by
  constructor
  · have h := (extraction_skip_iff "1.0.0" swUpToDate).1 ⟨rfl, rfl, rfl⟩
    simpa [swUpToDate] using h
  · have h := (extraction_skip_iff "2.0.0" swUpToDate).2
      (by simp [swUpToDate, fsReady, cfg0]) (by rfl) (by rfl)
      (by simp [swUpToDate, fsReady])
    simpa [swUpToDate, fsReady] using h

/-- Resource extraction never touches the process handle. -/
theorem extract_process_eq (ver : String) (w : SWorld) :
    (sresWorld (extractServerIfNeeded ver w)).serverProcess = w.serverProcess := by
  by_cases h : w.cfg.serverVersion = some ver <;>
  rcases Bool.eq_false_or_eq_true w.fs.exeExists with h1 | h1 <;>
  rcases Bool.eq_false_or_eq_true w.fs.cloudflaredExists with h2 | h2 <;>
  rcases Bool.eq_false_or_eq_true w.fs.zipExists with h3 | h3 <;>
  rcases Bool.eq_false_or_eq_true w.fs.extractDirExists with h4 | h4 <;>
  rcases Bool.eq_false_or_eq_true w.fs.rmFails with h5 | h5 <;>
  simp [extractServerIfNeeded, emitLogS, setStatusS, sresWorld, h, h1, h2, h3, h4, h5]

/-- The database check never touches the process handle. -/
theorem ensureDatabase_process_eq (w : SWorld) :
    (sresWorld (ensureDatabase w)).serverProcess = w.serverProcess := by
  rcases Bool.eq_false_or_eq_true w.fs.dbExists with h1 | h1 <;>
  rcases Bool.eq_false_or_eq_true w.fs.initialDbExists with h2 | h2 <;>
  rcases Bool.eq_false_or_eq_true w.fs.dbOpenFails with h3 | h3 <;>
  simp [ensureDatabase, emitLogS, setStatusS, sresWorld, h1, h2, h3]

/-- A failing spawn step throws before the handle is assigned. -/
theorem spawnServer_err_process (w wf : SWorld) (m : String)
    (h : spawnServer w = SRes.err wf m) : wf.serverProcess = w.serverProcess := by
  rcases Bool.eq_false_or_eq_true w.fs.exeExists with h1 | h1 <;>
    simp [spawnServer, setStatusS, h1] at h
  obtain ⟨rfl, rfl⟩ := h
  rfl

/-- A failing setup phase of `start()` leaves the process handle exactly
as it was: `spawnServer` throws before assigning it. -/
theorem serverStartBody_err_process (ver : String) (w wf : SWorld) (m : String)
    (h : serverStartBody ver w = SRes.err wf m) :
    wf.serverProcess = w.serverProcess := by
  unfold serverStartBody at h
  cases hx : extractServerIfNeeded ver w with
  | err w1 m1 =>
    rw [hx] at h
    cases h
    have := extract_process_eq ver w
    rwa [hx] at this
  | ok w1 =>
    rw [hx] at h
    dsimp only at h
    have h1 : w1.serverProcess = w.serverProcess := by
      have := extract_process_eq ver w
      rwa [hx] at this
    cases hy : ensureDatabase w1 with
    | err w2 m2 =>
      rw [hy] at h
      cases h
      have := ensureDatabase_process_eq w1
      rw [hy] at this
      simp only [sresWorld] at this
      rw [this, h1]
    | ok w2 =>
      rw [hy] at h
      have h2 : w2.serverProcess = w1.serverProcess := by
        have := ensureDatabase_process_eq w1
        rwa [hy] at this
      have h3 := spawnServer_err_process w2 wf m h
      rw [h3, h2, h1]

/-- Claim C1: whenever the setup phase of the primary service's `start()`
(resource provisioning, database check, or the spawn step) fails, the call
rejects with that error at its immediate caller — Node's
`EventEmitter.emit('error')` throws when no `error` listener is
registered, and the application registers none — an `error` status-change
event is emitted to observers, and no process handle exists afterwards. -/
theorem setup_failure_raises_and_errors (ver : String) (w wf : SWorld) (msg : String)
    (hp : w.serverProcess = none)
    (h1 : w.status ≠ ServerStatus.running) (h2 : w.status ≠ ServerStatus.starting)
    (hbody : serverStartBody ver
        (emitLogS { w with port := readPort w.cfg } "Starting initialization sequence...")
      = SRes.err wf msg) :
    ∃ w', serverStart ver false w = SRes.err w' msg ∧
      w'.status = ServerStatus.error ∧
      SEvent.statusChange ServerStatus.error ∈ w'.events ∧
      w'.serverProcess = none := by
  have hwf : wf.serverProcess = none := by
    have := serverStartBody_err_process ver _ wf msg hbody
    simpa [emitLogS, hp] using this
  have hbody' : serverStartBody ver
      { w with
        port := readPort w.cfg,
        events := w.events ++ [SEvent.log "Starting initialization sequence..."] }
      = SRes.err wf msg := by
    simpa [emitLogS] using hbody
  refine ⟨sresWorld (serverStart ver false w), ?_, ?_, ?_, ?_⟩ <;>
    simp [serverStart, h1, h2, emitLogS, hbody', serverCatch, sresWorld, setStatusS, hwf]

/-- Witness for C1: a fresh install whose bundled archive is missing —
provisioning fails, `start()` rejects, status is `error`, no handle. -/
theorem setup_failure_raises_and_errors_witness :
    ∃ w', serverStart "1.0.0" false (initSW fsNoZip cfg0) = SRes.err w' "Server zip not found" ∧
      w'.status = ServerStatus.error ∧
      SEvent.statusChange ServerStatus.error ∈ w'.events ∧
      w'.serverProcess = none :=
  setup_failure_raises_and_errors "1.0.0" (initSW fsNoZip cfg0)
    (sresWorld (serverStartBody "1.0.0"
      (emitLogS { (initSW fsNoZip cfg0) with port := readPort cfg0 }
        "Starting initialization sequence...")))
    "Server zip not found" rfl (by decide) (by decide) (by rfl)

/-- Counterexample to Claim C3 as stated: matching marker lines after the
first are *not* ignored.  A second "listening on port 4000" line re-runs
`setStatus('running')`, emitting a second `running` status-change event;
a second URL-bearing tunnel line re-emits the url-change event as well. -/
theorem readiness_not_idempotent_counterexample :
    (sStdoutData "listening on port 4000" swStarting).events.count
      (SEvent.statusChange ServerStatus.running) = 1 ∧
    (sStdoutData "listening on port 4000"
        (sStdoutData "listening on port 4000" swStarting)).events.count
      (SEvent.statusChange ServerStatus.running) = 2 ∧
    (tDataHandler exampleUrl twStarting).events.count
      (TEvent.urlChange (some exampleUrl)) = 1 ∧
    (tDataHandler exampleUrl (tDataHandler exampleUrl twStarting)).events.count
      (TEvent.urlChange (some exampleUrl)) = 2 := by
  refine ⟨?_, ?_, ?_, ?_⟩ <;> decide

/-- Claim C3 as amended: the status *value* is promoted to `running` by
the first matching marker line and every matching line leaves it at
`running`, so promotion is idempotent in the state; but each matching
line re-runs the promotion, appending exactly the same status-change
event (and log / url-change events) again instead of being ignored. -/
theorem readiness_reemits_each_match (w : SWorld) (v : TWorld) (msg umsg url : String)
    (hm : serverReadyMarker w.port msg = true)
    (hu : firstUrlMatch umsg = some url)
    (hc : strHas umsg "Connection" = false) :
    (sStdoutData msg w).status = ServerStatus.running ∧
    (sStdoutData msg w).events = w.events ++
      [SEvent.log msg, SEvent.statusChange ServerStatus.running,
        SEvent.log "Status changed to: RUNNING"] ∧
    (tDataHandler umsg v).status = TunnelStatus.running ∧
    (tDataHandler umsg v).events = v.events ++
      [TEvent.log ("[Tunnel] " ++ umsg), TEvent.log ("Tunnel URL: " ++ url),
        TEvent.urlChange (some url), TEvent.statusChange TunnelStatus.running] := by
  refine ⟨?_, ?_, ?_, ?_⟩
  · simp [sStdoutData, hm, setStatusS, emitLogS]
  · simp [sStdoutData, hm, setStatusS, emitLogS, ServerStatus.upper]
  · simp [tDataHandler, parseTunnelOutput, hu, hc, emitLogT, setStatusT]
  · simp [tDataHandler, parseTunnelOutput, hu, hc, emitLogT, setStatusT]

/-- Witness for the amended C3 on worlds that are already `running` with
the URL already recorded: the events are emitted again. -/
theorem readiness_reemits_each_match_witness :
    (sStdoutData "listening on port 4000" swRunning).status = ServerStatus.running ∧
    (sStdoutData "listening on port 4000" swRunning).events =
      [SEvent.log "listening on port 4000",
        SEvent.statusChange ServerStatus.running,
        SEvent.log "Status changed to: RUNNING"] ∧
    (tDataHandler exampleUrl twRunning).status = TunnelStatus.running ∧
    (tDataHandler exampleUrl twRunning).events =
      [TEvent.log ("[Tunnel] " ++ exampleUrl), TEvent.log ("Tunnel URL: " ++ exampleUrl),
        TEvent.urlChange (some exampleUrl), TEvent.statusChange TunnelStatus.running] := by
  have h := readiness_reemits_each_match swRunning twRunning
    "listening on port 4000" exampleUrl exampleUrl (by decide) (by decide) (by decide)
  simpa [swRunning, twRunning] using h

/-- Claim C4 is violated by the code in the timeout-then-exit schedule:
the timer body is guarded by `if (this.serverProcess)`, but the `exit`
listener is unguarded, so when the 5-second timer fires first and the
process exit event is delivered afterwards (the inevitable aftermath of
the SIGKILL), *both* completion paths run: `resolve()` is called twice,
the `idle` status transition is emitted twice, and the losing path still
emits its "Server stopped gracefully." log after the force-kill. -/
theorem stop_double_completion_bug :
    (serverStop StopOutcome.timeoutThenExit swRunning).2 = 2 ∧
    (serverStop StopOutcome.timeoutThenExit swRunning).1.events.count
      (SEvent.statusChange ServerStatus.idle) = 2 ∧
    SEvent.log "Server stopped gracefully." ∈
      (serverStop StopOutcome.timeoutThenExit swRunning).1.events ∧
    (serverStop StopOutcome.timeoutThenExit swRunning).1.signals = ["SIGTERM", "SIGKILL"] ∧
    (tunnelStop StopOutcome.timeoutThenExit twRunning).2 = 2 ∧
    (tunnelStop StopOutcome.timeoutThenExit twRunning).1.events.count
      (TEvent.statusChange TunnelStatus.idle) = 2 := by
  refine ⟨?_, ?_, ?_, ?_, ?_, ?_⟩ <;> decide

end Wazap
